import Mathlib

/-!
# Verification of the playwright-skill proxy authentication wrapper

Shallow embedding of `src/skills/playwright-skill/lib/proxy_wrapper.py`.

Modelling conventions:
* Python `str` values are modelled as Lean `String` / `List Char`; the traffic
  the wrapper handles is HTTP header text, and all string operations
  (`lower`, `upper`, `split`, `startswith`, slicing) are modelled ASCII-wise,
  which matches Python semantics on ASCII data.
* Python `bytes` values are modelled as `List UInt8` where byte identity
  matters (the CONNECT response head), and as `String` for the request byte
  buffer (which the code itself decodes leniently to text).
* Stateful socket code is modelled by explicit decision functions from the
  data the code inspects to an outcome value describing what the code does
  (which response it sends, whether it opens/keeps sockets, whether it
  starts the relay).
-/

/-! ## Basic character/string helpers (models of Python `str` methods) -/

/-- A carriage-return or line-feed character. -/
def isCrlfChar (c : Char) : Bool := c = '\r' || c = '\n'

/-- A character list with no CR and no LF, i.e. a well-formed single header
line (the result of splitting a request on `"\r\n"` never contains the
two-character sequence, and ordinary header lines contain neither byte). -/
def cleanChars (l : List Char) : Bool := l.all (fun c => !isCrlfChar c)

/-- A string with no CR and no LF character. -/
def cleanStr (s : String) : Bool := cleanChars s.data

/-- Model of Python `str.lower()` (ASCII). -/
def pyLower (s : String) : String := String.mk (s.data.map Char.toLower)

/-- Model of Python `str.upper()` (ASCII). -/
def pyUpper (s : String) : String := String.mk (s.data.map Char.toUpper)

/-- Model of Python `str.split(sep)` for a one-character separator, on
character lists: split at every occurrence, keeping empty pieces. -/
def charSplit (sep : Char) : List Char → List (List Char)
  | [] => [[]]
  | c :: rest =>
    if c = sep then [] :: charSplit sep rest
    else (charSplit sep rest).modifyHead (c :: ·)

/-- Model of Python `str.split(sep)` for a one-character separator. -/
def pySplit (sep : Char) (s : String) : List String :=
  (charSplit sep s.data).map String.mk

/-- Split a character list at every (leftmost, non-overlapping) occurrence of
the two-character sequence `"\r\n"`: the model of Python
`str.split('\r\n')`. -/
def crlfSplit : List Char → List (List Char)
  | [] => [[]]
  | [c] => [[c]]
  | c :: d :: rest =>
    if c = '\r' && d = '\n' then [] :: crlfSplit rest
    else (crlfSplit (d :: rest)).modifyHead (c :: ·)

/-- The lines of a string, splitting on `"\r\n"` (Python `s.split('\r\n')`). -/
def crlfLines (s : String) : List String := (crlfSplit s.data).map String.mk

/-- Index of the first occurrence of `pat` inside `l` (model of Python
`bytes.find` / the `in` operator). -/
def findSub (pat : List Char) : List Char → Option Nat
  | [] => if pat.isEmpty then some 0 else none
  | c :: rest =>
    if pat.isPrefixOf (c :: rest) then some 0
    else (findSub pat rest).map (· + 1)

/-- Model of Python `b"\r\n\r\n" in request`. -/
def containsHeaderEnd (s : String) : Bool :=
  (findSub "\r\n\r\n".data s.data).isSome

/-- Model of Python `str.rstrip('\r\n')`: drop trailing CR/LF characters. -/
def rstripCrlf (s : String) : String :=
  String.mk ((s.data.reverse.dropWhile isCrlfChar).reverse)

/-- Model of Python `str.strip()` (strip whitespace at both ends). -/
def pyStrip (s : String) : String :=
  String.mk (((s.data.dropWhile Char.isWhitespace).reverse.dropWhile
    Char.isWhitespace).reverse)

/-- `s ++ "\r\n"` appended after every element: the accumulation pattern
`result += line + '\r\n'` used by `_inject_auth_header`. -/
def joinCrlf : List String → String
  | [] => ""
  | s :: rest => s ++ "\r\n" ++ joinCrlf rest

/-! ## UTF-8 and base64 (models of `str.encode()` and `base64.b64encode`) -/

/-- UTF-8 encoding of a single code point. -/
def utf8EncodeCharM (c : Char) : List UInt8 :=
  let n := c.toNat
  if n < 0x80 then [UInt8.ofNat n]
  else if n < 0x800 then
    [UInt8.ofNat (0xC0 + n / 64), UInt8.ofNat (0x80 + n % 64)]
  else if n < 0x10000 then
    [UInt8.ofNat (0xE0 + n / 4096), UInt8.ofNat (0x80 + (n / 64) % 64),
     UInt8.ofNat (0x80 + n % 64)]
  else
    [UInt8.ofNat (0xF0 + n / 262144), UInt8.ofNat (0x80 + (n / 4096) % 64),
     UInt8.ofNat (0x80 + (n / 64) % 64), UInt8.ofNat (0x80 + n % 64)]

/-- Model of Python `str.encode()` (UTF-8 bytes of a string). -/
def utf8Bytes (s : String) : List UInt8 := s.data.flatMap utf8EncodeCharM

/-- The base64 alphabet. -/
def b64Alphabet : List Char :=
  "ABCDEFGHIJKLMNOPQRSTUVWXYZabcdefghijklmnopqrstuvwxyz0123456789+/".data

/-- The base64 digit for a 6-bit value. -/
def b64Digit (n : Nat) : Char := b64Alphabet.getD n 'A'

/-- Standard base64 of a byte list, with `=` padding (model of
`base64.b64encode`). -/
def b64Encode : List UInt8 → List Char
  | [] => []
  | [a] =>
    let x := a.toNat
    [b64Digit (x / 4), b64Digit ((x % 4) * 16), '=', '=']
  | [a, b] =>
    let x := a.toNat * 256 + b.toNat
    [b64Digit (x / 1024), b64Digit ((x / 16) % 64), b64Digit ((x % 16) * 4), '=']
  | a :: b :: c :: rest =>
    let x := a.toNat * 65536 + b.toNat * 256 + c.toNat
    b64Digit (x / 262144) :: b64Digit ((x / 4096) % 64) ::
      b64Digit ((x / 64) % 64) :: b64Digit (x % 64) :: b64Encode rest

/-- `base64.b64encode(s.encode()).decode()`: base64 of a string's UTF-8
bytes, as a string. -/
def base64OfString (s : String) : String := String.mk (b64Encode (utf8Bytes s))

/-! ## Configuration (`get_proxy_config` result shape) and
`_build_auth_header` -/

/-- The configuration dict built by `get_proxy_config`: upstream host and
port, optional userinfo credentials, and the parsed `NO_PROXY` pattern
list.  `username`/`password` are `Option` because `urlparse(...).username`
is `None` when the URL has no userinfo. -/
structure ProxyConfig where
  host : String
  port : Nat
  username : Option String
  password : Option String
  no_proxy : List String
deriving DecidableEq, Repr

/-- Python truthiness of an optional string (`None` and `""` are falsy):
the test `proxy_config.get('username')` performs. -/
def truthyOpt : Option String → Bool
  | some s => decide (s ≠ "")
  | none => false

/-- `_build_auth_header` (proxy_wrapper.py lines 137–143): `"Basic " +`
base64 of `username:password` when both are truthy, otherwise `None`. -/
def build_auth_header (cfg : ProxyConfig) : Option String :=
  if truthyOpt cfg.username && truthyOpt cfg.password then
    some ("Basic " ++ base64OfString (cfg.username.getD "" ++ ":" ++ cfg.password.getD ""))
  else
    none

/-- C9: `buildAuthHeader` returns `None` unless both username and password
are present (truthy); when both are present it returns exactly
`"Basic " ++ base64 (username ++ ":" ++ password)`. -/
theorem build_auth_header_correct (cfg : ProxyConfig) :
    (truthyOpt cfg.username = false ∨ truthyOpt cfg.password = false →
      build_auth_header cfg = none) ∧
    (∀ u p, cfg.username = some u → cfg.password = some p →
      u ≠ "" → p ≠ "" →
      build_auth_header cfg = some ("Basic " ++ base64OfString (u ++ ":" ++ p))) := by
  constructor
  · intro h
    unfold build_auth_header
    rcases h with h | h <;> simp [h]
  · intro u p hu hp hune hpne
    unfold build_auth_header
    rw [hu, hp]
    have hu' : truthyOpt (some u) = true := by
      simp [truthyOpt, hune]
    have hp' : truthyOpt (some p) = true := by
      simp [truthyOpt, hpne]
    simp [hu', hp']

/-- Witness for C9 at concrete inputs: with `username="u", password="p"` the
header is `Basic dTpw` (`dTpw` is base64 of `u:p`); with no credentials the
result is `None`. -/
theorem build_auth_header_correct_witness :
    build_auth_header ⟨"proxy.example", 8080, some "u", some "p", []⟩
      = some "Basic dTpw" ∧
    build_auth_header ⟨"proxy.example", 8080, none, none, []⟩ = none := by
  constructor
  · have h := (build_auth_header_correct
      ⟨"proxy.example", 8080, some "u", some "p", []⟩).2 "u" "p" rfl rfl
      (by decide) (by decide)
    rw [h]
    decide
  · exact (build_auth_header_correct
      ⟨"proxy.example", 8080, none, none, []⟩).1 (Or.inl (by decide))

/-! ## `_inject_auth_header` (proxy_wrapper.py lines 146–160) -/

/-- Python `line.lower().startswith('proxy-authorization:')`. -/
def isProxyAuthLine (s : String) : Bool :=
  "proxy-authorization:".data.isPrefixOf (s.data.map Char.toLower)

/-- The loop's filter `if line and not line.lower().startswith('proxy-authorization:')`:
keep a line iff it is nonempty and is not a Proxy-Authorization line. -/
def keepLine (s : String) : Bool := decide (s ≠ "") && !isProxyAuthLine s

/-- `_inject_auth_header(request_lines, auth_header)`: copy the request line,
copy every nonempty non-`Proxy-Authorization` line, then (when an auth header
value is given) strip trailing CR/LF, append the fresh
`Proxy-Authorization:` line, and terminate with a blank line. -/
def inject_auth_header (request_lines : List String) (auth_header : Option String) : String :=
  let base := joinCrlf (request_lines.headD "" :: request_lines.tail.filter keepLine)
  match auth_header with
  | none => base ++ "\r\n"
  | some a =>
    rstripCrlf base ++ "\r\n" ++ ("Proxy-Authorization: " ++ a ++ "\r\n") ++ "\r\n"

/-! ### Splitting lemmas -/

theorem crlfSplit_cons₂ (c d : Char) (rest : List Char) :
    crlfSplit (c :: d :: rest) =
      if c = '\r' && d = '\n' then [] :: crlfSplit rest
      else (crlfSplit (d :: rest)).modifyHead (c :: ·) := rfl

theorem crlfSplit_ne_nil (l : List Char) : crlfSplit l ≠ [] := by
  match l with
  | [] => simp [crlfSplit]
  | [c] => simp [crlfSplit]
  | c :: d :: rest =>
    rw [crlfSplit]
    split
    · simp
    · have := crlfSplit_ne_nil (d :: rest)
      cases h : crlfSplit (d :: rest) with
      | nil => exact absurd h this
      | cons x xs => simp [h]

theorem cleanChars_cons {c : Char} {l : List Char}
    (h : cleanChars (c :: l) = true) :
    (c ≠ '\r' ∧ c ≠ '\n') ∧ cleanChars l = true := by
  simp [cleanChars, isCrlfChar] at h
  simpa [cleanChars, isCrlfChar] using h

/-- Splitting a clean line followed by a CRLF separator peels off exactly
that line. -/
theorem crlfSplit_clean_append (l rest : List Char) (h : cleanChars l = true) :
    crlfSplit (l ++ '\r' :: '\n' :: rest) = l :: crlfSplit rest := by
  induction l with
  | nil => simp [crlfSplit]
  | cons c l' ih =>
    obtain ⟨⟨hcr, _⟩, hl'⟩ := cleanChars_cons h
    cases l' with
    | nil =>
      show crlfSplit (c :: '\r' :: '\n' :: rest) = [c] :: crlfSplit rest
      simp [crlfSplit]
    | cons e l'' =>
      show crlfSplit (c :: (e :: (l'' ++ '\r' :: '\n' :: rest))) = _
      rw [crlfSplit_cons₂]
      simp only [hcr, Bool.false_and, decide_eq_true_eq, if_false]
      have ih' := ih hl'
      rw [List.cons_append] at ih'
      rw [ih']
      simp

/-- `(joinCrlf L).data` with one more element at the end. -/
theorem joinCrlf_data_cons (s : String) (L : List String) :
    (joinCrlf (s :: L)).data = s.data ++ '\r' :: '\n' :: (joinCrlf L).data := by
  show (s ++ "\r\n" ++ joinCrlf L).data = _
  simp [String.data_append]

/-- Splitting the CRLF-join of clean lines recovers the lines, plus a final
empty piece (the join ends with a separator). -/
theorem crlfSplit_joinCrlf (L : List String) (h : ∀ s ∈ L, cleanStr s = true) :
    crlfSplit (joinCrlf L).data = L.map String.data ++ [[]] := by
  induction L with
  | nil => simp [joinCrlf, crlfSplit]
  | cons a t ih =>
    rw [joinCrlf_data_cons, crlfSplit_clean_append _ _ (h a (by simp)),
      ih (fun s hs => h s (by simp [hs]))]
    simp

/-! ### `rstrip('\r\n')` lemmas -/

/-- The character-list form of `rstripCrlf`. -/
def rstripData (l : List Char) : List Char :=
  (l.reverse.dropWhile isCrlfChar).reverse

theorem rstripCrlf_data (s : String) : (rstripCrlf s).data = rstripData s.data := rfl

theorem rstripData_append_crlf (l : List Char) :
    rstripData (l ++ ['\r', '\n']) = rstripData l := by
  simp [rstripData, List.dropWhile, isCrlfChar]

theorem rstripData_of_clean (l : List Char) (h : cleanChars l = true) :
    rstripData l = l := by
  have h' : ∀ c ∈ l, (!isCrlfChar c) = true := by
    simpa [cleanChars, List.all_eq_true] using h
  have hrev : ∀ c ∈ l.reverse, isCrlfChar c = false := by
    intro c hc
    rw [List.mem_reverse] at hc
    simpa using h' c hc
  rw [rstripData]
  cases hr : l.reverse with
  | nil => simpa using congrArg List.reverse hr.symm
  | cons x xs =>
    have hx : isCrlfChar x = false := hrev x (by simp [hr])
    rw [List.dropWhile_cons, hx]
    simp [← hr]

theorem rstripData_append_of_ne_nil (A rest : List Char)
    (h : rstripData rest ≠ []) :
    rstripData (A ++ rest) = A ++ rstripData rest := by
  have hdw : rest.reverse.dropWhile isCrlfChar ≠ [] := by
    intro hc
    apply h
    simp [rstripData, hc]
  rw [rstripData, List.reverse_append, List.dropWhile_append]
  simp only [List.isEmpty_iff, hdw, if_false]
  simp [rstripData]

/-- For a join of clean lines whose non-head lines are nonempty, `rstrip('\r\n')`
removes exactly the final CRLF separator. -/
theorem rstrip_joinCrlf (h : String) (kept : List String)
    (hh : cleanStr h = true)
    (hk : ∀ s ∈ kept, cleanStr s = true ∧ s ≠ "") :
    (rstripCrlf (joinCrlf (h :: kept))).data ++ ['\r', '\n']
      = (joinCrlf (h :: kept)).data := by
  induction kept generalizing h with
  | nil =>
    rw [rstripCrlf_data, joinCrlf_data_cons]
    have : h.data ++ '\r' :: '\n' :: (joinCrlf []).data = h.data ++ ['\r', '\n'] := by
      simp [joinCrlf]
    rw [this, rstripData_append_crlf, rstripData_of_clean _ hh]
  | cons k kept' ih =>
    have hkk := hk k (by simp)
    have ihk := ih k hkk.1 (fun s hs => hk s (by simp [hs]))
    have hR : rstripData (joinCrlf (k :: kept')).data ≠ [] := by
      intro hc
      rw [rstripCrlf_data, hc] at ihk
      have hkd : k.data ≠ [] := fun hd => hkk.2 (by
        cases k; simpa using congrArg String.mk hd)
      cases hd : k.data with
      | nil => exact hkd hd
      | cons c cs =>
        have hclean : cleanChars (c :: cs) = true := by rw [← hd]; exact hkk.1
        obtain ⟨⟨hcr, _⟩, _⟩ := cleanChars_cons hclean
        have hcontr : c = '\r' ∧ cs ++ '\r' :: '\n' :: (joinCrlf kept').data = ['\n'] := by
          simpa [joinCrlf_data_cons, hd] using ihk.symm
        exact hcr hcontr.1
    rw [rstripCrlf_data, joinCrlf_data_cons]
    have hsplit : h.data ++ '\r' :: '\n' :: (joinCrlf (k :: kept')).data
        = (h.data ++ ['\r', '\n']) ++ (joinCrlf (k :: kept')).data := by simp
    rw [hsplit, rstripData_append_of_ne_nil _ _ hR]
    rw [rstripCrlf_data] at ihk
    simp [ihk]

theorem joinCrlf_data_append (L M : List String) :
    (joinCrlf (L ++ M)).data = (joinCrlf L).data ++ (joinCrlf M).data := by
  induction L with
  | nil => simp [joinCrlf]
  | cons a t ih => simp [joinCrlf_data_cons, ih]

theorem cleanStr_append (a b : String) (ha : cleanStr a = true)
    (hb : cleanStr b = true) : cleanStr (a ++ b) = true := by
  simp only [cleanStr, cleanChars, String.data_append, List.all_append]
  simp only [cleanStr, cleanChars] at ha hb
  rw [ha, hb]
  rfl

/-- The lines of the rewritten request: the request line, then exactly the
kept header lines, then (when credentials are present) the fresh
`Proxy-Authorization` line, then the blank terminator (an empty line plus the
empty piece after the final separator). -/
theorem crlfLines_inject (rl : List String) (auth : Option String)
    (hclean : ∀ l ∈ rl, cleanStr l = true)
    (hauth : ∀ a, auth = some a → cleanStr a = true) :
    crlfLines (inject_auth_header rl auth) =
      rl.headD "" :: (rl.tail.filter keepLine ++
        auth.elim ["", ""] (fun a => ["Proxy-Authorization: " ++ a, "", ""])) := by
  have hh : cleanStr (rl.headD "") = true := by
    cases rl with
    | nil => decide
    | cons a t => exact hclean a (by simp)
  have hkept : ∀ s ∈ rl.tail.filter keepLine, cleanStr s = true ∧ s ≠ "" := by
    intro s hs
    rw [List.mem_filter] at hs
    have hb := hs.2
    unfold keepLine at hb
    rw [Bool.and_eq_true] at hb
    exact ⟨hclean s (List.mem_of_mem_tail hs.1), of_decide_eq_true hb.1⟩
  have hmkdata : ∀ L : List String, (L.map String.data).map String.mk = L := by
    intro L
    induction L with
    | nil => rfl
    | cons a t ih =>
      rw [List.map_cons, List.map_cons, ih]
  cases auth with
  | none =>
    have hdata : (inject_auth_header rl none).data
        = (joinCrlf ((rl.headD "" :: rl.tail.filter keepLine) ++ [""])).data := by
      show (joinCrlf (rl.headD "" :: rl.tail.filter keepLine) ++ "\r\n").data = _
      rw [joinCrlf_data_append, String.data_append]
      simp [joinCrlf]
    have hall : ∀ s ∈ (rl.headD "" :: rl.tail.filter keepLine) ++ [""],
        cleanStr s = true := by
      intro s hs
      rcases List.mem_append.mp hs with hs | hs
      · rcases List.mem_cons.mp hs with rfl | hs
        · exact hh
        · exact (hkept s hs).1
      · rw [List.mem_singleton] at hs
        subst hs
        decide
    rw [crlfLines, hdata, crlfSplit_joinCrlf _ hall]
    rw [List.map_append, hmkdata]
    simp [Option.elim]
  | some a =>
    have hPAclean : cleanStr ("Proxy-Authorization: " ++ a) = true :=
      cleanStr_append _ _ (by decide) (hauth a rfl)
    have hbase := rstrip_joinCrlf (rl.headD "") (rl.tail.filter keepLine) hh hkept
    have hdata : (inject_auth_header rl (some a)).data
        = (joinCrlf ((rl.headD "" :: rl.tail.filter keepLine)
            ++ ["Proxy-Authorization: " ++ a, ""])).data := by
      show (rstripCrlf (joinCrlf (rl.headD "" :: rl.tail.filter keepLine))
          ++ "\r\n" ++ ("Proxy-Authorization: " ++ a ++ "\r\n") ++ "\r\n").data = _
      rw [joinCrlf_data_append]
      simp only [String.data_append]
      rw [hbase]
      simp [joinCrlf, joinCrlf_data_cons, String.data_append]
    have hall : ∀ s ∈ (rl.headD "" :: rl.tail.filter keepLine)
        ++ ["Proxy-Authorization: " ++ a, ""], cleanStr s = true := by
      intro s hs
      rcases List.mem_append.mp hs with hs | hs
      · rcases List.mem_cons.mp hs with rfl | hs
        · exact hh
        · exact (hkept s hs).1
      · rcases List.mem_cons.mp hs with rfl | hs
        · exact hPAclean
        · rw [List.mem_singleton] at hs
          subst hs
          decide
    rw [crlfLines, hdata, crlfSplit_joinCrlf _ hall]
    rw [List.map_append, hmkdata]
    simp [Option.elim]

theorem isProxyAuthLine_fresh (a : String) :
    isProxyAuthLine ("Proxy-Authorization: " ++ a) = true := by
  unfold isProxyAuthLine
  rw [String.data_append, List.map_append, List.isPrefixOf_iff_prefix]
  have hlow : ("Proxy-Authorization: ".data.map Char.toLower)
      = "proxy-authorization: ".data := by decide
  rw [hlow]
  exact (by decide : "proxy-authorization:".data <+: "proxy-authorization: ".data).trans
    (List.prefix_append _ _)

theorem keepLine_not_proxyAuth {s : String}
    (h : s ∈ List.filter keepLine l) : isProxyAuthLine s = false := by
  rw [List.mem_filter] at h
  have hb := h.2
  unfold keepLine at hb
  rw [Bool.and_eq_true] at hb
  have := hb.2
  rwa [Bool.not_eq_true'] at this

/-- C1: for every request (any list of CR/LF-free header lines, any
client-supplied `Proxy-Authorization` value among them) and any built auth
header value, the rewritten request's header lines (everything after the
request line, as split on `"\r\n"`) contain exactly one
`Proxy-Authorization` line when credentials are present and none otherwise,
and every `Proxy-Authorization` line in the output is the freshly computed
one — a client-supplied line never survives. -/
theorem inject_auth_header_single_proxy_auth
    (request_lines : List String) (auth : Option String)
    (hclean : ∀ l ∈ request_lines, cleanStr l = true)
    (hauth : ∀ a, auth = some a → cleanStr a = true) :
    ((crlfLines (inject_auth_header request_lines auth)).drop 1).countP
        isProxyAuthLine = (if auth.isSome then 1 else 0) ∧
    ∀ l ∈ (crlfLines (inject_auth_header request_lines auth)).drop 1,
      isProxyAuthLine l = true →
        ∃ a, auth = some a ∧ l = "Proxy-Authorization: " ++ a := by
  rw [crlfLines_inject request_lines auth hclean hauth]
  rw [List.drop_one, List.tail_cons]
  have hkcount : (request_lines.tail.filter keepLine).countP isProxyAuthLine = 0 :=
    List.countP_eq_zero.mpr (fun s hs => by
      simp [keepLine_not_proxyAuth hs])
  cases auth with
  | none =>
    simp only [Option.elim]
    constructor
    · rw [List.countP_append, hkcount]
      decide
    · intro l hl hpa
      rcases List.mem_append.mp hl with hl | hl
      · rw [keepLine_not_proxyAuth hl] at hpa
        exact absurd hpa (by simp)
      · rcases List.mem_cons.mp hl with rfl | hl
        · exact absurd hpa (by decide)
        · rw [List.mem_singleton] at hl
          subst hl
          exact absurd hpa (by decide)
  | some a =>
    simp only [Option.elim]
    constructor
    · rw [List.countP_append, hkcount, List.countP_cons, List.countP_cons,
        List.countP_cons, List.countP_nil, isProxyAuthLine_fresh]
      simp [isProxyAuthLine]
    · intro l hl hpa
      rcases List.mem_append.mp hl with hl | hl
      · rw [keepLine_not_proxyAuth hl] at hpa
        exact absurd hpa (by simp)
      · rcases List.mem_cons.mp hl with rfl | hl
        · exact ⟨a, rfl, rfl⟩
        · rcases List.mem_cons.mp hl with rfl | hl
          · exact absurd hpa (by decide)
          · rw [List.mem_singleton] at hl
            subst hl
            exact absurd hpa (by decide)

/-- Witness for C1: a concrete CONNECT request carrying a client-supplied
`Proxy-Authorization: Foo` line, rewritten with credentials present, has
exactly one `Proxy-Authorization` header line, and it carries the freshly
computed value. -/
theorem inject_auth_header_single_proxy_auth_witness :
    ((crlfLines (inject_auth_header
        ["CONNECT example.com:443 HTTP/1.1", "Host: example.com:443",
         "Proxy-Authorization: Foo"] (some "Basic dTpw"))).drop 1).countP
      isProxyAuthLine = 1 := by
  have h := (inject_auth_header_single_proxy_auth
    ["CONNECT example.com:443 HTTP/1.1", "Host: example.com:443",
     "Proxy-Authorization: Foo"] (some "Basic dTpw")
    (by intro l hl; fin_cases hl <;> decide)
    (by intro a ha; cases ha; decide)).1
  simpa using h

/-! ## `_send_error` (proxy_wrapper.py lines 163–177) -/

/-- The HTTP error response `_send_error` writes back to the client. -/
def send_error_response (status : Nat) (reason : String) : String :=
  let body := toString status ++ " " ++ reason ++ "\r\n"
  "HTTP/1.1 " ++ toString status ++ " " ++ reason ++ "\r\n" ++
    "Content-Type: text/plain\r\n" ++
    "Content-Length: " ++ toString body.length ++ "\r\n" ++
    "Connection: close\r\n" ++
    "\r\n" ++ body

/-! ## `_handle_connect` (proxy_wrapper.py lines 198–256) -/

/-- What `_handle_connect` does once the upstream response head has been
read: the accumulated head is forwarded to the client verbatim, then either
the bidirectional relay is started (both sockets stay open) or both sockets
are closed. -/
structure ConnectResult where
  forwardedToClient : List UInt8
  relayStarted : Bool
  clientClosed : Bool
  proxyClosed : Bool
deriving DecidableEq, Repr

/-- Python `b"200" in response[:50]` (the bytes of `"200"` are 50, 48, 48):
the three-byte sequence occurs contiguously somewhere in the first 50 bytes. -/
def tunnel_established (response : List UInt8) : Bool :=
  decide (([50, 48, 48] : List UInt8) <:+: response.take 50)

/-- The decision `_handle_connect` takes after reading the upstream response
head `response` (lines 217–239): forward the head to the client; if `b"200"`
occurs in its first 50 bytes, start the two relay threads, otherwise close
both sockets without starting any relay. -/
def handle_connect_response (response : List UInt8) : ConnectResult :=
  if tunnel_established response then
    { forwardedToClient := response, relayStarted := true,
      clientClosed := false, proxyClosed := false }
  else
    { forwardedToClient := response, relayStarted := false,
      clientClosed := true, proxyClosed := true }

/-- C2: for every upstream response head, the tunnel is established (relay
started) iff the byte sequence `"200"` occurs in the first 50 bytes of the
accumulated response; when it does not occur, both sockets are closed and no
relay is started. -/
theorem connect_response_decision (response : List UInt8) :
    ((handle_connect_response response).relayStarted = true ↔
      ([50, 48, 48] : List UInt8) <:+: response.take 50) ∧
    (¬ (([50, 48, 48] : List UInt8) <:+: response.take 50) →
      (handle_connect_response response).relayStarted = false ∧
      (handle_connect_response response).clientClosed = true ∧
      (handle_connect_response response).proxyClosed = true) := by
  unfold handle_connect_response tunnel_established
  constructor
  · constructor
    · intro h
      by_contra hc
      rw [if_neg (by simpa using hc)] at h
      simp at h
    · intro h
      rw [if_pos (by simpa using h)]
  · intro h
    rw [if_neg (by simpa using h)]
    exact ⟨rfl, rfl, rfl⟩

/-- Witness for C2 at a concrete rejected CONNECT: for the response head
`HTTP/1.1 407 Proxy Authentication Required` (no `200` in its first 50
bytes), the relay is not started and both sockets are closed. -/
theorem connect_response_decision_witness :
    (handle_connect_response (utf8Bytes
        "HTTP/1.1 407 Proxy Authentication Required\r\n\r\n")).relayStarted = false ∧
    (handle_connect_response (utf8Bytes
        "HTTP/1.1 407 Proxy Authentication Required\r\n\r\n")).clientClosed = true ∧
    (handle_connect_response (utf8Bytes
        "HTTP/1.1 407 Proxy Authentication Required\r\n\r\n")).proxyClosed = true :=
  (connect_response_decision _).2 (by decide)

/-! ## Error mapping of `_handle_connect` and `_handle_http`
(proxy_wrapper.py lines 241–256 and 282–294) -/

/-- The two classes of upstream failure the handlers distinguish:
`socket.timeout` (caught first) and every other `OSError`. -/
inductive UpstreamError
  | timeout
  | osError
deriving DecidableEq, Repr

/-- The `except` blocks of `_handle_connect`: the response written to the
client and whether the (partially opened) upstream socket is closed. -/
def connect_error_reply : UpstreamError → String × Bool
  | .timeout => (send_error_response 504 "Gateway Timeout", true)
  | .osError => (send_error_response 502 "Bad Gateway", true)

/-- The `except` blocks of `_handle_http` (the `finally` clause closes both
sockets in every case). -/
def http_error_reply : UpstreamError → String × Bool
  | .timeout => (send_error_response 504 "Gateway Timeout", true)
  | .osError => (send_error_response 502 "Bad Gateway", true)

/-- C8: in both handlers, a timeout of the upstream connect/read yields a
`504 Gateway Timeout` response to the client with the upstream socket
closed, and every other upstream socket error yields a `502 Bad Gateway`
response; the status line of the synthesized response distinguishes exactly
these two cases. -/
theorem upstream_error_mapping :
    (connect_error_reply .timeout
        = (send_error_response 504 "Gateway Timeout", true)) ∧
    (connect_error_reply .osError
        = (send_error_response 502 "Bad Gateway", true)) ∧
    (http_error_reply .timeout
        = (send_error_response 504 "Gateway Timeout", true)) ∧
    (http_error_reply .osError
        = (send_error_response 502 "Bad Gateway", true)) ∧
    ((crlfLines (connect_error_reply .timeout).1).headD ""
        = "HTTP/1.1 504 Gateway Timeout") ∧
    ((crlfLines (connect_error_reply .osError).1).headD ""
        = "HTTP/1.1 502 Bad Gateway") ∧
    ((crlfLines (http_error_reply .timeout).1).headD ""
        = "HTTP/1.1 504 Gateway Timeout") ∧
    ((crlfLines (http_error_reply .osError).1).headD ""
        = "HTTP/1.1 502 Bad Gateway") := by
  refine ⟨rfl, rfl, rfl, rfl, ?_, ?_, ?_, ?_⟩ <;> decide

/-! ## Socket timeouts around the relay (proxy_wrapper.py lines 180–234) -/

/-- The socket operations the handlers perform, as far as timeout
configuration is concerned. -/
inductive SockOp
  | create
  | setTimeout (seconds : Nat)
  | connect
  | sendAll
  | recvLoop
deriving DecidableEq, Repr

/-- Operations `_handle_connect` performs on the upstream proxy socket
before handing it to the relay threads (lines 202–215, in source order):
the socket is created, `settimeout(30)` is called once, then connect, send
and the response-head recv loop follow; no further `settimeout` call occurs
anywhere in the module. -/
def connect_upstream_ops : List SockOp :=
  [.create, .setTimeout 30, .connect, .sendAll, .recvLoop]

/-- Operations performed on the accepted client socket before it is handed
to the relay threads: it comes from `accept()` and no `settimeout` is ever
called on it. -/
def connect_client_ops : List SockOp :=
  [.create, .sendAll]

/-- The timeout configured on a socket after a list of operations (Python
`settimeout` persists for the lifetime of the socket, so the last
`settimeout` value is still in force for every later `recv`/`send`). -/
def timeout_after (ops : List SockOp) : Option Nat :=
  ops.foldl (fun acc op =>
    match op with
    | .setTimeout n => some n
    | _ => acc) none

/-- C6 counterexample: the claim says the steady-state relay reads carry no
explicit timeout on either socket, but the 30-second timeout set on the
upstream socket before connecting is never cleared, so the relay's reads
from the upstream socket still carry it (a stalled upstream peer makes the
`recv` raise `socket.timeout` after 30 s, terminating that relay
direction). -/
theorem relay_upstream_timeout_counterexample :
    timeout_after connect_upstream_ops = some 30 ∧
    timeout_after connect_upstream_ops ≠ none := by
  constructor
  · rfl
  · intro h
    simp [timeout_after, connect_upstream_ops] at h

/-- C6 amended: when the relay starts, the client socket carries no explicit
timeout, while the upstream socket still carries the 30-second timeout set
before the connect (the only `settimeout` call in the module), so only the
upstream side of the relay can time out. -/
theorem relay_timeout_state :
    timeout_after connect_client_ops = none ∧
    timeout_after connect_upstream_ops = some 30 :=
  ⟨rfl, rfl⟩

/-! ## CONNECT hostname extraction (proxy_wrapper.py line 325) -/

/-- `hostname = target.split(':')[0]` in `handle_client`. -/
def connect_hostname (target : String) : String :=
  (pySplit ':' target).headD ""

/-- The spec's words for C5: the substring of the target before the *last*
colon (everything up to the final colon). -/
def before_last_colon (s : String) : String :=
  if s.data.contains ':' then
    String.mk (((s.data.reverse.dropWhile (· ≠ ':')).drop 1).reverse)
  else s

theorem charSplit_ne_nil (sep : Char) (l : List Char) :
    charSplit sep l ≠ [] := by
  match l with
  | [] => simp [charSplit]
  | c :: rest =>
    rw [charSplit]
    split
    · simp
    · have := charSplit_ne_nil sep rest
      cases h : charSplit sep rest with
      | nil => exact absurd h this
      | cons x xs => simp [h]

theorem charSplit_head (sep : Char) (l : List Char) :
    (charSplit sep l).headD [] = l.takeWhile (· ≠ sep) := by
  induction l with
  | nil => simp [charSplit]
  | cons c rest ih =>
    rw [charSplit]
    by_cases hc : c = sep
    · subst hc
      simp [List.takeWhile_cons]
    · rw [if_neg hc]
      cases h : charSplit sep rest with
      | nil => exact absurd h (charSplit_ne_nil sep rest)
      | cons x xs =>
        rw [h] at ih
        simp only [List.headD_cons] at ih
        simp [List.takeWhile_cons, hc, List.modifyHead, ih]

/-- C5 counterexample: for the bracketed IPv6 CONNECT target `[::1]:443`
the code hands `"["` (everything before the *first* colon) to the bypass
matcher, not `"[::1]"` (everything before the last colon) as the claim
states. -/
theorem connect_hostname_counterexample :
    connect_hostname "[::1]:443" = "[" ∧
    before_last_colon "[::1]:443" = "[::1]" ∧
    connect_hostname "[::1]:443" ≠ before_last_colon "[::1]:443" := by
  refine ⟨?_, ?_, ?_⟩ <;> decide

/-- C5 amended: for every CONNECT target, the hostname handed to the bypass
matcher is the substring of the target before the *first* colon (an IPv6
target is truncated at its first colon). -/
theorem connect_hostname_first_colon (target : String) :
    connect_hostname target = String.mk (target.data.takeWhile (· ≠ ':')) := by
  unfold connect_hostname pySplit
  cases h : charSplit ':' target.data with
  | nil => exact absurd h (charSplit_ne_nil ':' target.data)
  | cons x xs =>
    have := charSplit_head ':' target.data
    rw [h] at this
    simp only [List.headD_cons] at this
    simp [this]

/-! ## `_should_bypass_proxy` (proxy_wrapper.py lines 90–134) -/

/-- Numeric value of a decimal digit string. -/
def digitsToNat (l : List Char) : Nat :=
  l.foldl (fun a c => a * 10 + (c.toNat - 48)) 0

/-- One dotted-quad octet: decimal digits, no leading zero (except `"0"`),
value at most 255. -/
def parse_octet (s : String) : Option Nat :=
  if s.data ≠ [] ∧ s.data.all Char.isDigit ∧
      (s.data.length = 1 ∨ s.data.headD 'x' ≠ '0') then
    let n := digitsToNat s.data
    if n ≤ 255 then some n else none
  else none

/-- Dotted-quad IPv4 literal, as a number. -/
def parse_ipv4 (s : String) : Option Nat :=
  match pySplit '.' s with
  | [a, b, c, d] => do
    let x ← parse_octet a
    let y ← parse_octet b
    let z ← parse_octet c
    let w ← parse_octet d
    some (((x * 256 + y) * 256 + z) * 256 + w)
  | _ => none

/-- Modelled from the spec: rule 3 of the bypass matcher compares IP
literals numerically using the stdlib `ipaddress.ip_address` (not part of
this repository).  Modelled here for IPv4 dotted-quads and the IPv6
loopback literal `::1`; the version tag keeps a v4 and a v6 address of
equal value distinct, as in Python. -/
def ip_address_model (s : String) : Option (Nat × Nat) :=
  match parse_ipv4 s with
  | some v => some (4, v)
  | none => if s = "::1" then some (6, 1) else none

/-- The `try: ip_address(hostname) == ip_address(pattern) except ValueError`
step: false when either side fails to parse. -/
def ip_equal (a b : String) : Bool :=
  match ip_address_model a, ip_address_model b with
  | some x, some y => decide (x = y)
  | _, _ => false

/-- `_should_bypass_proxy(hostname, proxy_config)`: the hard-coded loopback
names are bypassed first (note: by *case-sensitive* comparison); with no
patterns nothing else is bypassed; otherwise the first matching pattern
(wildcard, numeric IP equality, leading-dot domain suffix, or exact
case-insensitive equality) causes a bypass. -/
def should_bypass_proxy (hostname : String) (cfg : ProxyConfig) : Bool :=
  if hostname = "localhost" ∨ hostname = "127.0.0.1" ∨ hostname = "::1" then
    true
  else if cfg.no_proxy.isEmpty then false
  else
    cfg.no_proxy.any (fun p =>
      let pattern := pyStrip (pyLower p)
      if pattern = "*" then true
      else if ip_equal hostname pattern then true
      else if pattern.data.headD ' ' = '.' then
        pattern.data.isSuffixOf (pyLower hostname).data ||
          decide (pyLower hostname = String.mk (pattern.data.drop 1))
      else decide (pyLower hostname = pattern))

/-- C3 counterexample: the claim says the loopback bypass is
case-insensitive, but the tuple membership test on line 105 is
case-sensitive, so `"LOCALHOST"` (as produced by an upper-case CONNECT
target, which is not lower-cased on that path) is not bypassed when no
patterns are configured, while `"localhost"` is. -/
theorem bypass_localhost_case_counterexample :
    should_bypass_proxy "LOCALHOST" ⟨"proxy.example", 8080, none, none, []⟩
      = false ∧
    should_bypass_proxy "localhost" ⟨"proxy.example", 8080, none, none, []⟩
      = true := by
  constructor <;> decide

/-! ## `handle_client` (proxy_wrapper.py lines 297–354) -/

/-- What `handle_client` does with an accumulated request, before any
upstream work: drop silently (empty request: close without response), send
`400` (empty request line), send `502` and close (bypass hit — no upstream
socket is ever opened), or dispatch to the CONNECT / plain-HTTP handler
(which is the only path that opens an upstream socket). -/
inductive ClientOutcome where
  | dropSilently
  | badRequest
  | bypassReject (hostname : String)
  | connectUpstream (hostname : String) (lines : List String)
  | httpUpstream (hostname : String) (lines : List String) (request : String)
deriving DecidableEq, Repr

/-- The tail of `handle_client` once the hostname is known (lines 332–343):
bypass check first (a hit sends 502 and closes the client socket before any
upstream connect), then dispatch on the method. -/
def dispatch_request (hostname : String) (isConnect : Bool)
    (lines : List String) (request : String) (cfg : ProxyConfig) :
    ClientOutcome :=
  if should_bypass_proxy hostname cfg then .bypassReject hostname
  else if isConnect then .connectUpstream hostname lines
  else .httpUpstream hostname lines request

/-- The dispatch logic of `handle_client` on the accumulated request text
(lines 308–343).  `urlHostname` abstracts `urlparse(target).hostname`
(stdlib, not part of this repository); `none` covers both a `None` result
and a raised exception, which the code maps to `''`. -/
def handle_client_decision (urlHostname : String → Option String)
    (request : String) (cfg : ProxyConfig) : ClientOutcome :=
  if request = "" then .dropSilently
  else
    let lines := crlfLines request
    if lines.headD "" = "" then .badRequest
    else
      let first := lines.headD ""
      let parts := pySplit ' ' first
      let method := pyUpper (parts.headD "")
      let target := if parts.length > 1 then parts.getD 1 "" else ""
      let hostname := if method = "CONNECT" then connect_hostname target
                      else (urlHostname target).getD ""
      dispatch_request hostname (method = "CONNECT") lines request cfg

/-- An upstream-opening dispatch is only reached when the bypass check on
its hostname failed. -/
theorem dispatch_request_upstream_not_bypassed
    (hostname : String) (isConnect : Bool) (lines : List String)
    (request : String) (cfg : ProxyConfig) :
    (∀ hn ls, dispatch_request hostname isConnect lines request cfg
        = .connectUpstream hn ls →
      hn = hostname ∧ should_bypass_proxy hn cfg = false) ∧
    (∀ hn ls rq, dispatch_request hostname isConnect lines request cfg
        = .httpUpstream hn ls rq →
      hn = hostname ∧ should_bypass_proxy hn cfg = false) := by
  unfold dispatch_request
  by_cases hb : should_bypass_proxy hostname cfg = true
  · rw [if_pos hb]
    constructor
    · intro hn ls heq
      exact absurd heq (by simp)
    · intro hn ls rq heq
      exact absurd heq (by simp)
  · rw [if_neg hb]
    rw [Bool.not_eq_true] at hb
    cases isConnect with
    | true =>
      constructor
      · intro hn ls heq
        rw [if_pos rfl] at heq
        obtain ⟨rfl, -⟩ := ClientOutcome.connectUpstream.inj heq.symm
        exact ⟨rfl, hb⟩
      · intro hn ls rq heq
        rw [if_pos rfl] at heq
        exact absurd heq (by simp)
    | false =>
      constructor
      · intro hn ls heq
        rw [if_neg (by simp)] at heq
        exact absurd heq (by simp)
      · intro hn ls rq heq
        rw [if_neg (by simp)] at heq
        obtain ⟨rfl, -, -⟩ := ClientOutcome.httpUpstream.inj heq.symm
        exact ⟨rfl, hb⟩

/-- The header-read loop of `handle_client` (lines 301–306): accumulate
chunks until the terminator `\r\n\r\n` is present; the end of the chunk
list is the peer closing the stream (an empty `recv`). -/
def read_request_go (acc : String) : List String → String
  | [] => acc
  | c :: rest =>
    if containsHeaderEnd acc then acc else read_request_go (acc ++ c) rest

/-- The request accumulated from a client byte stream. -/
def read_request (chunks : List String) : String := read_request_go "" chunks

/-- C3 amended: for every hostname *exactly* equal (case-sensitively) to
`localhost`, `127.0.0.1` or `::1`, `shouldBypass` returns true regardless of
the configured patterns, and `handle_client` never dispatches to an
upstream-opening handler for such a hostname (it answers 502 and closes the
client socket before any upstream connect). -/
theorem bypass_localhost_exact :
    (∀ (cfg : ProxyConfig) (h : String),
      h = "localhost" ∨ h = "127.0.0.1" ∨ h = "::1" →
      should_bypass_proxy h cfg = true) ∧
    (∀ (f : String → Option String) (request : String) (cfg : ProxyConfig)
        (hn : String) (ls : List String),
      handle_client_decision f request cfg = .connectUpstream hn ls →
      ¬(hn = "localhost" ∨ hn = "127.0.0.1" ∨ hn = "::1")) ∧
    (∀ (f : String → Option String) (request : String) (cfg : ProxyConfig)
        (hn : String) (ls : List String) (rq : String),
      handle_client_decision f request cfg = .httpUpstream hn ls rq →
      ¬(hn = "localhost" ∨ hn = "127.0.0.1" ∨ hn = "::1")) := by
  have hbp : ∀ (cfg : ProxyConfig) (h : String),
      h = "localhost" ∨ h = "127.0.0.1" ∨ h = "::1" →
      should_bypass_proxy h cfg = true := by
    intro cfg h hh
    unfold should_bypass_proxy
    rw [if_pos hh]
  refine ⟨hbp, ?_, ?_⟩
  · intro f request cfg hn ls heq hmem
    unfold handle_client_decision at heq
    by_cases h1 : request = ""
    · rw [if_pos h1] at heq
      exact absurd heq (by simp)
    · rw [if_neg h1] at heq
      by_cases h2 : (crlfLines request).headD "" = ""
      · rw [if_pos h2] at heq
        exact absurd heq (by simp)
      · rw [if_neg h2] at heq
        have := ((dispatch_request_upstream_not_bypassed _ _ _ _ _).1
          hn ls heq).2
        rw [hbp cfg hn hmem] at this
        exact absurd this (by simp)
  · intro f request cfg hn ls rq heq hmem
    unfold handle_client_decision at heq
    by_cases h1 : request = ""
    · rw [if_pos h1] at heq
      exact absurd heq (by simp)
    · rw [if_neg h1] at heq
      by_cases h2 : (crlfLines request).headD "" = ""
      · rw [if_pos h2] at heq
        exact absurd heq (by simp)
      · rw [if_neg h2] at heq
        have := ((dispatch_request_upstream_not_bypassed _ _ _ _ _).2
          hn ls rq heq).2
        rw [hbp cfg hn hmem] at this
        exact absurd this (by simp)

/-- Witness for C3 amended: concrete loopback hostnames are bypassed under
nonempty pattern lists. -/
theorem bypass_localhost_exact_witness :
    should_bypass_proxy "localhost"
      ⟨"proxy.example", 8080, none, none, [".example.com"]⟩ = true ∧
    should_bypass_proxy "::1" ⟨"proxy.example", 8080, none, none, ["*"]⟩ = true :=
  ⟨bypass_localhost_exact.1 _ "localhost" (Or.inl rfl),
   bypass_localhost_exact.1 _ "::1" (Or.inr (Or.inr rfl))⟩

/-- C7 counterexample: a stream that ends (EOF) after delivering a partial
header block — no `\r\n\r\n` ever arrives — is *not* dropped: the
accumulated nonempty request is parsed and dispatched to the CONNECT
handler, which attempts an upstream connection.  Only a fully empty request
is dropped silently. -/
theorem partial_header_not_dropped :
    containsHeaderEnd (read_request ["CONNECT example.com:443 HTTP/1.1\r\n"])
      = false ∧
    handle_client_decision (fun _ => none)
        (read_request ["CONNECT example.com:443 HTTP/1.1\r\n"])
        ⟨"proxy.example", 8080, none, none, []⟩
      = .connectUpstream "example.com"
          ["CONNECT example.com:443 HTTP/1.1", ""] := by
  constructor <;> decide

/-- C7 amended: a client stream that reaches end-of-stream having delivered
no bytes at all is treated as an empty request and dropped — the client
socket is closed with no response sent and no upstream connection
attempted. -/
theorem empty_request_dropped (f : String → Option String) (cfg : ProxyConfig)
    (chunks : List String) (h : read_request chunks = "") :
    handle_client_decision f (read_request chunks) cfg = .dropSilently := by
  rw [h]
  simp [handle_client_decision]

/-- Witness for C7 amended: the stream with no chunks yields the empty
request and is dropped silently. -/
theorem empty_request_dropped_witness :
    read_request [] = "" ∧
    handle_client_decision (fun _ => none) (read_request [])
      ⟨"proxy.example", 8080, none, none, []⟩ = .dropSilently :=
  ⟨rfl, empty_request_dropped _ _ [] rfl⟩

/-! ## `_handle_http` request forwarding (proxy_wrapper.py lines 259–273) -/

/-- Everything `_handle_http` sends to the upstream proxy for one request:
`_inject_auth_header(request_lines, auth)` (where `handle_client` computed
`request_lines` by splitting the *whole* accumulated request, body
included, on `"\r\n"`), followed by the bytes of the accumulated request
past the `\r\n\r\n` terminator, when any exist. -/
def http_upstream_bytes (request : String) (auth_header : Option String) : String :=
  let lines := crlfLines request
  let modified := inject_auth_header lines auth_header
  let body :=
    match findSub "\r\n\r\n".data request.data with
    | some i =>
      if i + 4 < request.data.length then String.mk (request.data.drop (i + 4))
      else ""
    | none => ""
  modified ++ body

/-- Number of occurrences of `pat` (at any position) in `l`. -/
def count_occurrences (pat l : List Char) : Nat :=
  (List.range (l.length + 1)).countP (fun i => pat.isPrefixOf (l.drop i))

/-- C4: the body bytes are *not* forwarded exactly once.  `handle_client`
splits the entire accumulated request — body included — into `lines`, and
`_inject_auth_header` copies every nonempty line, so the body reappears
inside the rewritten header block and is then sent a second time as the
buffered body.  For a POST whose initial read contained the 4-byte body
`BODY`, the bytes sent upstream contain `BODY` twice (once ahead of the
injected `Proxy-Authorization` line, once after the blank line). -/
theorem http_body_duplicated :
    count_occurrences "BODY".data
      "POST http://example.com/upload HTTP/1.1\r\nContent-Length: 4\r\n\r\nBODY".data
      = 1 ∧
    count_occurrences "BODY".data
      (http_upstream_bytes
        "POST http://example.com/upload HTTP/1.1\r\nContent-Length: 4\r\n\r\nBODY"
        (some "Basic dTpw")).data
      = 2 ∧
    http_upstream_bytes
        "POST http://example.com/upload HTTP/1.1\r\nContent-Length: 4\r\n\r\nBODY"
        (some "Basic dTpw")
      = "POST http://example.com/upload HTTP/1.1\r\nContent-Length: 4\r\nBODY\r\nProxy-Authorization: Basic dTpw\r\n\r\nBODY" := by
  refine ⟨?_, ?_, ?_⟩ <;> decide

/-! ## `start_proxy_wrapper` / `accept_connections`
(proxy_wrapper.py lines 364–412) -/

/-- The module-level wrapper state: the bound listening port of
`_wrapper_server` (`none` when no server exists) and the configuration the
accept loop was started with (the `proxy_config` closed over by
`accept_connections`, handed to every `handle_client` thread). -/
structure WrapperState where
  server_port : Option Nat
  active_config : Option ProxyConfig
deriving DecidableEq, Repr

/-- `start_proxy_wrapper(proxy_config)`: if a server already exists, return
the existing endpoint URL and change nothing; otherwise bind a fresh
OS-assigned port (modelled by `fresh_port`), remember the configuration for
the accept loop, and return the new endpoint URL. -/
def start_proxy_wrapper_model (st : WrapperState) (cfg : ProxyConfig)
    (fresh_port : Nat) : WrapperState × String :=
  match st.server_port with
  | some p => (st, "http://127.0.0.1:" ++ toString p)
  | none =>
    ({ server_port := some fresh_port, active_config := some cfg },
      "http://127.0.0.1:" ++ toString fresh_port)

/-- C10: starting the wrapper a second time — with any configuration, and
any port the OS would have assigned — returns the original endpoint URL
unchanged, leaves the state untouched (no second listening socket, same
bound port), and keeps the configuration captured at the first start for
all connections. -/
theorem start_proxy_wrapper_idempotent (cfg cfg2 : ProxyConfig) (p p2 : Nat) :
    (start_proxy_wrapper_model
        (start_proxy_wrapper_model ⟨none, none⟩ cfg p).1 cfg2 p2).1
      = (start_proxy_wrapper_model ⟨none, none⟩ cfg p).1 ∧
    (start_proxy_wrapper_model
        (start_proxy_wrapper_model ⟨none, none⟩ cfg p).1 cfg2 p2).2
      = (start_proxy_wrapper_model ⟨none, none⟩ cfg p).2 ∧
    (start_proxy_wrapper_model
        (start_proxy_wrapper_model ⟨none, none⟩ cfg p).1 cfg2 p2).1.active_config
      = some cfg := by
  exact ⟨rfl, rfl, rfl⟩
